import Mathlib

/-!
# Verification of the `recon_metadata` response-normalization and merge engine

A shallow embedding of the core of the `recon_metadata` crate:

* ISBN parsing (modelled on the `isbn2` dependency: separators `-` and ` `
  are skipped, `X`/`x` counts as digit ten, length and checksum validated);
* calendar-date parsing (modelled on `chrono::NaiveDate::parse_from_str`
  restricted to the strftime directives the crate uses: `%Y`, `%m`, `%d`,
  `%B`, literals and whitespace);
* the `Metadata` record, its `Add` merge (`src/metadata.rs`);
* the field translaters (`src/util/translater.rs`) and adaptors
  (`src/sources/adaptor.rs`);
* the orchestrator flows `from_isbn` / `from_description`
  (`src/metadata.rs`) and the candidate-identifier search decoders
  (`src/source/google_books.rs`, `src/source/open_library.rs`).

Rust `HashSet` fields become `Finset`; Rust `HashMap` values become
association lists; the network is abstracted: each flow takes the already
fetched / JSON-decoded provider responses as arguments.  A diverging call
(`unimplemented!()` / `todo!()` / an arithmetic-underflow panic) is
modelled as `Option.none`.
-/

deriving instance DecidableEq for Except

namespace ReconMetadata

/-! ## ISBN model (after the `isbn2` crate) -/

/-- The digit sequence of a validated ISBN-10 (`isbn2::Isbn10`). -/
structure Isbn10 where
  digits : List Nat
deriving DecidableEq

/-- The digit sequence of a validated ISBN-13 (`isbn2::Isbn13`). -/
structure Isbn13 where
  digits : List Nat
deriving DecidableEq

/-- `isbn2::Isbn`: either of the two ISBN kinds. -/
inductive Isbn where
  | isbn10 (v : Isbn10)
  | isbn13 (v : Isbn13)
deriving DecidableEq

/-- One ISBN input character: `0`-`9` are themselves, `X`/`x` is ten. -/
def isbnCharDigit (c : Char) : Option Nat :=
  if c.isDigit then some (c.toNat - 48)
  else if c = 'X' ∨ c = 'x' then some 10
  else none

/-- The `isbn2` scanner: `-` and ` ` are skipped, any other
non-digit character aborts the parse. -/
def isbnScan : List Char → Option (List Nat)
  | [] => some []
  | c :: cs =>
    if c = '-' ∨ c = ' ' then isbnScan cs
    else
      match isbnCharDigit c with
      | some d => (isbnScan cs).map (d :: ·)
      | none => none

/-- ISBN-10 checksum: the weighted digit sum must vanish mod 11. -/
def isbn10valid (ds : List Nat) : Bool :=
  ds.length = 10 && (ds.take 9).all (· ≤ 9) && ds.all (· ≤ 10) &&
    (List.zipWith (· * ·) ds [10, 9, 8, 7, 6, 5, 4, 3, 2, 1]).sum % 11 = 0

/-- ISBN-13 checksum: alternating weights 1 and 3, sum vanishes mod 10. -/
def isbn13valid (ds : List Nat) : Bool :=
  ds.length = 13 && ds.all (· ≤ 9) &&
    (List.zipWith (· * ·) ds [1, 3, 1, 3, 1, 3, 1, 3, 1, 3, 1, 3, 1]).sum % 10 = 0

/-- `isbn2::Isbn10::from_str`; a parse failure (`Err(IsbnError)`) is `none`. -/
def Isbn10.from_str (s : String) : Option Isbn10 :=
  (isbnScan s.toList).bind fun ds =>
    if isbn10valid ds then some ⟨ds⟩ else none

/-- `isbn2::Isbn13::from_str`; a parse failure (`Err(IsbnError)`) is `none`. -/
def Isbn13.from_str (s : String) : Option Isbn13 :=
  (isbnScan s.toList).bind fun ds =>
    if isbn13valid ds then some ⟨ds⟩ else none

/-- `isbn2::Isbn::from_str`: dispatch on the scanned length;
a parse failure (`Err(IsbnError)`) is `none`. -/
def Isbn.from_str (s : String) : Option Isbn :=
  (isbnScan s.toList).bind fun ds =>
    if ds.length = 10 then
      if isbn10valid ds then some (.isbn10 ⟨ds⟩) else none
    else if ds.length = 13 then
      if isbn13valid ds then some (.isbn13 ⟨ds⟩) else none
    else none

/-! ## Calendar dates (after `chrono`) -/

/-- A validated calendar date (`chrono::NaiveDate`). -/
structure NaiveDate where
  year : Int
  month : Nat
  day : Nat
deriving DecidableEq

/-- The kinds of `chrono::format::ParseError`. -/
inductive ChronoErrorKind where
  | invalid
  | tooShort
  | tooLong
  | notEnough
  | outOfRange
  | badFormat
deriving DecidableEq

/-- The strftime items appearing in the crate's format strings. -/
inductive FmtItem where
  | space
  | lit (c : Char)
  | numYear
  | numMonth
  | numDay
  | monthName
deriving DecidableEq

/-- `chrono::format::StrftimeItems` restricted to the directives the
crate uses; an unknown directive yields `none` (chrono: `BAD_FORMAT`). -/
def fmtItems : List Char → Option (List FmtItem)
  | [] => some []
  | '%' :: c :: rest =>
    match c with
    | 'Y' => (fmtItems rest).map (.numYear :: ·)
    | 'm' => (fmtItems rest).map (.numMonth :: ·)
    | 'd' => (fmtItems rest).map (.numDay :: ·)
    | 'B' => (fmtItems rest).map (.monthName :: ·)
    | _ => none
  | ['%'] => none
  | c :: rest =>
    (fmtItems rest).map ((if c.isWhitespace then .space else .lit c) :: ·)

/-- Leading-whitespace skip (`str::trim_start`). -/
def skipWs (s : List Char) : List Char := s.dropWhile (·.isWhitespace)

/-- Take up to `max` leading ASCII digits. -/
def takeDigits : Nat → List Char → List Char × List Char
  | 0, s => ([], s)
  | _ + 1, [] => ([], [])
  | n + 1, c :: cs =>
    if c.isDigit then
      let (ds, rest) := takeDigits n cs
      (c :: ds, rest)
    else ([], c :: cs)

/-- Numeric value of a digit string. -/
def digitsVal (ds : List Char) : Nat :=
  ds.foldl (fun a c => a * 10 + (c.toNat - 48)) 0

/-- `chrono::format::scan::number`: greedy, at most `maxW` digits,
empty input is `TOO_SHORT`, a leading non-digit is `INVALID`. -/
def scanNumber (maxW : Nat) (s : List Char) :
    Except ChronoErrorKind (Nat × List Char) :=
  match s with
  | [] => .error .tooShort
  | c :: _ =>
    if c.isDigit then
      let (ds, rest) := takeDigits maxW s
      .ok (digitsVal ds, rest)
    else .error .invalid

/-- Case-insensitive prefix match, returning the rest of the input. -/
def matchCI : List Char → List Char → Option (List Char)
  | [], s => some s
  | _ :: _, [] => none
  | p :: ps, c :: cs => if c.toLower = p.toLower then matchCI ps cs else none

/-- Month-name table: abbreviation and long-form suffix
(chrono `scan::short_or_long_month0`). -/
def monthTable : List (List Char × List Char) :=
  [("jan".toList, "uary".toList),
   ("feb".toList, "ruary".toList),
   ("mar".toList, "ch".toList),
   ("apr".toList, "il".toList),
   ("may".toList, "".toList),
   ("jun".toList, "e".toList),
   ("jul".toList, "y".toList),
   ("aug".toList, "ust".toList),
   ("sep".toList, "tember".toList),
   ("oct".toList, "ober".toList),
   ("nov".toList, "ember".toList),
   ("dec".toList, "ember".toList)]

/-- Try each month in order: match the abbreviation, then optionally
consume the long-form suffix.  Returns the 1-based month. -/
def scanMonthAux : List (List Char × List Char) → Nat → List Char →
    Option (Nat × List Char)
  | [], _, _ => none
  | (ab, suf) :: rest, m, s =>
    match matchCI ab s with
    | some s' =>
      some (m, match matchCI suf s' with
               | some s'' => s''
               | none => s')
    | none => scanMonthAux rest (m + 1) s

/-- `chrono::format::scan::short_or_long_month0`: fewer than three
characters is `TOO_SHORT`, no matching abbreviation is `INVALID`. -/
def scanMonthName (s : List Char) : Except ChronoErrorKind (Nat × List Char) :=
  if s.length < 3 then .error .tooShort
  else
    match scanMonthAux monthTable 1 s with
    | some r => .ok r
    | none => .error .invalid

/-- The partially filled-in fields of `chrono::format::Parsed`. -/
structure ParsedDate where
  year : Option Int := none
  month : Option Nat := none
  day : Option Nat := none

/-- Run one list of strftime items over the input
(`chrono::format::parse`); any input left over afterwards is `TOO_LONG`. -/
def runItems : List FmtItem → List Char → ParsedDate →
    Except ChronoErrorKind ParsedDate
  | [], s, p => if s.isEmpty then .ok p else .error .tooLong
  | .space :: items, s, p => runItems items (skipWs s) p
  | .lit c :: items, s, p =>
    match s with
    | [] => .error .tooShort
    | c' :: rest => if c' = c then runItems items rest p else .error .invalid
  | .numMonth :: items, s, p =>
    match scanNumber 2 (skipWs s) with
    | .ok (v, rest) => runItems items rest { p with month := some v }
    | .error e => .error e
  | .numDay :: items, s, p =>
    match scanNumber 2 (skipWs s) with
    | .ok (v, rest) => runItems items rest { p with day := some v }
    | .error e => .error e
  | .numYear :: items, s, p =>
    -- chrono: years are signed; an explicit sign lifts the 4-digit width cap
    match skipWs s with
    | '-' :: rest =>
      match scanNumber rest.length rest with
      | .ok (v, rest') => runItems items rest' { p with year := some (-(v : Int)) }
      | .error e => .error e
    | '+' :: rest =>
      match scanNumber rest.length rest with
      | .ok (v, rest') => runItems items rest' { p with year := some (v : Int) }
      | .error e => .error e
    | s' =>
      match scanNumber 4 s' with
      | .ok (v, rest') => runItems items rest' { p with year := some (v : Int) }
      | .error e => .error e
  | .monthName :: items, s, p =>
    match scanMonthName s with
    | .ok (v, rest) => runItems items rest { p with month := some v }
    | .error e => .error e

/-- Proleptic-Gregorian leap year. -/
def isLeapYear (y : Int) : Bool :=
  y % 4 = 0 && (y % 100 ≠ 0 || y % 400 = 0)

/-- Days in a month of a given year. -/
def daysInMonth (y : Int) (m : Nat) : Nat :=
  match m with
  | 1 => 31
  | 2 => if isLeapYear y then 29 else 28
  | 3 => 31
  | 4 => 30
  | 5 => 31
  | 6 => 30
  | 7 => 31
  | 8 => 31
  | 9 => 30
  | 10 => 31
  | 11 => 30
  | 12 => 31
  | _ => 0

/-- `chrono::format::Parsed::to_naive_date`: all three fields must be
present (`NOT_ENOUGH`) and denote a real calendar date in `NaiveDate`
range (`OUT_OF_RANGE`). -/
def toNaiveDate (p : ParsedDate) : Except ChronoErrorKind NaiveDate :=
  match p.year, p.month, p.day with
  | some y, some m, some d =>
    if 1 ≤ m ∧ m ≤ 12 ∧ 1 ≤ d ∧ d ≤ daysInMonth y m ∧ y.natAbs ≤ 262143 then
      .ok ⟨y, m, d⟩
    else .error .outOfRange
  | _, _, _ => .error .notEnough

/-- `chrono::NaiveDate::parse_from_str`. -/
def NaiveDate.parse_from_str (s fmt : String) : Except ChronoErrorKind NaiveDate :=
  match fmtItems fmt.toList with
  | none => .error .badFormat
  | some items =>
    match runItems items s.toList {} with
    | .ok p => toNaiveDate p
    | .error e => .error e

/-! ## Errors and providers (`src/recon.rs`) -/

/-- `isbn2::IsbnError` (payload of `ReconError::ISBNParse`). -/
inductive IsbnError where
  | invalidDigit
  | invalidLength
  | invalidChecksum
deriving DecidableEq

/-- `ReconError` from `src/recon.rs`.  The `serde_json` and `reqwest`
payloads are abstracted to their message strings. -/
inductive ReconError where
  | Message (msg : String)
  | JSONParse (msg : String)
  | Connection (msg : String)
  | ISBNParse (e : IsbnError)
  | DateParse (e : ChronoErrorKind)
deriving DecidableEq

/-- The provider enumeration `Source` from `src/recon.rs`. -/
inductive Source where
  | GoogleBooks
  | OpenLibrary
  | Goodreads
  | Amazon
deriving DecidableEq

/-- `Except.isOk` as a `Bool`. -/
def isOkE {ε α : Type} : Except ε α → Bool
  | .ok _ => true
  | .error _ => false

/-! ## The record type and its merge (`src/metadata.rs`) -/

/-- `CoverImage`: per-size sets of cover image URLs. -/
structure CoverImage where
  small_thumbnail : Finset String
  thumbnail : Finset String
  small : Finset String
  medium : Finset String
  large : Finset String
  extra_large : Finset String
deriving DecidableEq

/-- `CoverImage::default()`: all sets empty. -/
def CoverImage.default : CoverImage := ⟨∅, ∅, ∅, ∅, ∅, ∅⟩

/-- `CoverImage::extend`: per-field `HashSet::extend`, i.e. set union. -/
def CoverImage.extend (a b : CoverImage) : CoverImage :=
  ⟨a.small_thumbnail ∪ b.small_thumbnail,
   a.thumbnail ∪ b.thumbnail,
   a.small ∪ b.small,
   a.medium ∪ b.medium,
   a.large ∪ b.large,
   a.extra_large ∪ b.extra_large⟩

/-- The unified record `Metadata` from `src/metadata.rs`; every
`HashSet` field becomes a `Finset` (`u16` page counts become `Nat`). -/
structure Metadata where
  isbn10 : Finset Isbn10
  isbn13 : Finset Isbn13
  title : Finset String
  author : Finset String
  description : Finset String
  page_count : Finset Nat
  publisher : Finset String
  publication_date : Finset NaiveDate
  language : Finset String
  tag : Finset String
  cover_image : CoverImage
deriving DecidableEq

/-- `Metadata::default()`: all fields empty. -/
def Metadata.default : Metadata :=
  ⟨∅, ∅, ∅, ∅, ∅, ∅, ∅, ∅, ∅, ∅, CoverImage.default⟩

/-- `impl Add for Metadata`: per-field `HashSet::extend`, i.e. set union. -/
def Metadata.add (a b : Metadata) : Metadata :=
  ⟨a.isbn10 ∪ b.isbn10,
   a.isbn13 ∪ b.isbn13,
   a.title ∪ b.title,
   a.author ∪ b.author,
   a.description ∪ b.description,
   a.page_count ∪ b.page_count,
   a.publisher ∪ b.publisher,
   a.publication_date ∪ b.publication_date,
   a.language ∪ b.language,
   a.tag ∪ b.tag,
   a.cover_image.extend b.cover_image⟩

instance : Add Metadata := ⟨Metadata.add⟩

theorem Metadata.add_def (a b : Metadata) : a + b = Metadata.add a b := rfl

/-! ## Field translaters (`src/util/translater.rs`) -/

/-- `optional_to_hashset`: `None` becomes the empty set, `Some` a singleton. -/
def optional_to_hashset {α : Type} [DecidableEq α] (value : Option α) : Finset α :=
  match value with
  | some v => {v}
  | none => ∅

/-- `hashset_fallback`: `None` becomes the empty set. -/
def hashset_fallback {α : Type} [DecidableEq α] (value : Option (Finset α)) : Finset α :=
  match value with
  | some v => v
  | none => ∅

/-- Rust `str::starts_with`, computed on the character lists. -/
def strStartsWith (s pre : String) : Bool :=
  pre.toList.isPrefixOf s.toList

namespace translater

/-- `translater::string`. -/
def string (s : Option String) : Finset String := optional_to_hashset s

/-- `translater::number` (on `u16`, modelled as `Nat`). -/
def number (n : Option Nat) : Finset Nat := optional_to_hashset n

/-- `translater::vec`: collect a string list into a set. -/
def vec (v : Option (List String)) : Finset String :=
  hashset_fallback (v.map List.toFinset)

/-- `translater::openlibrary_isbn10`: from the `"identifiers"` map, take
every entry whose key starts with `"isbn_10"`, parse each string and —
quoting the source comment — `discarding Err` keep only successes. -/
def openlibrary_isbn10 (hashmap_vec : Option (List (String × List String))) :
    Finset Isbn10 :=
  hashset_fallback (hashmap_vec.map fun hm =>
    ((((hm.filter (fun kv => strStartsWith kv.1 "isbn_10")).map Prod.snd).flatten).filterMap
      Isbn10.from_str).toFinset)

/-- `translater::openlibrary_isbn13`: same for `"isbn_13"` keys. -/
def openlibrary_isbn13 (hashmap_vec : Option (List (String × List String))) :
    Finset Isbn13 :=
  hashset_fallback (hashmap_vec.map fun hm =>
    ((((hm.filter (fun kv => strStartsWith kv.1 "isbn_13")).map Prod.snd).flatten).filterMap
      Isbn13.from_str).toFinset)

/-- `translater::googlebooks_isbn13`: keep the identifier objects whose
`"type"` is `"ISBN_13"`, look up `"identifier"`, parse, and — quoting the
source comment — `discarding Err` keep only successes. -/
def googlebooks_isbn13 (hashmap_vec : Option (List (List (String × String)))) :
    Finset Isbn13 :=
  hashset_fallback (hashmap_vec.map fun hv =>
    (((hv.filter (fun h => List.lookup "type" h = some "ISBN_13")).filterMap
        (fun h => List.lookup "identifier" h)).filterMap
      Isbn13.from_str).toFinset)

/-- `translater::googlebooks_isbn10`: same for `"ISBN_10"`. -/
def googlebooks_isbn10 (hashmap_vec : Option (List (List (String × String)))) :
    Finset Isbn10 :=
  hashset_fallback (hashmap_vec.map fun hv =>
    (((hv.filter (fun h => List.lookup "type" h = some "ISBN_10")).filterMap
        (fun h => List.lookup "identifier" h)).filterMap
      Isbn10.from_str).toFinset)

/-- The ordered format list of `translater::publication_date`. -/
def possible_formats : List String := ["%B %d, %Y", "%Y-%m-%d", "%B, %d %Y"]

/-- `translater::publication_date`: parse the input under every format,
`filter(is_ok)`, `map(unwrap)` (together: `filterMap toOption`) and
collect the successes into a set; `None` input gives the empty set. -/
def publication_date (s : Option String) : Finset NaiveDate :=
  match s with
  | some s =>
    ((possible_formats.map fun fmt => NaiveDate.parse_from_str s fmt).filterMap
      Except.toOption).toFinset
  | none => ∅

end translater

/-! ## Field adaptors (`src/sources/adaptor.rs`) -/

namespace adaptor

/-- `adaptor::parse_string`. -/
def parse_string (s : String) : Option (Except ReconError String) :=
  some (.ok s)

/-- UTF-8 byte count of a character list (Rust `String::len`). -/
def utf8Len (cs : List Char) : Nat := (cs.map Char.utf8Size).sum

/-- Rust `str::is_char_boundary`: byte index `i` is the starting byte of
a character, or the end of the string. -/
def isCharBoundary : List Char → Nat → Bool
  | _, 0 => true
  | [], _ + 1 => false
  | c :: cs, i + 1 =>
    if c.utf8Size ≤ i + 1 then isCharBoundary cs (i + 1 - c.utf8Size) else false

/-- The byte-indexed suffix split of Rust `String::split_off`: walk whole
characters up to byte index `i`; when `i` lands strictly inside a
character (not a boundary) or past the end, `split_off` panics — `none`;
otherwise the suffix starting at byte `i` is returned. -/
def splitOffBytes : Nat → List Char → Option (List Char)
  | 0, cs => some cs
  | _ + 1, [] => none
  | i + 1, c :: cs =>
    if c.utf8Size ≤ i + 1 then splitOffBytes (i + 1 - c.utf8Size) cs else none

/-- Rust `v.split_off(v.len() - 3)` from `parse_languages`: `v.len()` is
the UTF-8 BYTE length.  When `v.len() < 3` the `usize` index underflows
and the call panics; when byte index `v.len() - 3` is not a character
boundary, `split_off`'s assertion panics; otherwise the final three
bytes are returned.  Panics are modelled as `none`. -/
def split_off_last3 (v : String) : Option String :=
  if utf8Len v.toList < 3 then none
  else (splitOffBytes (utf8Len v.toList - 3) v.toList).map String.mk

/-- Effect plumbing for the panic model: a list computation whose every
element may panic (`none`) panics as a whole when any element does. -/
def traverseOption {α β : Type} (f : α → Option β) : List α → Option (List β)
  | [] => some []
  | a :: as => (f a).bind fun b => (traverseOption f as).map (b :: ·)

/-- `adaptor::parse_languages`: for every map in the list, every value is
replaced by its last three BYTES (`"/language/eng"` to `"eng"`), each
wrapped in `Ok`.  A value shorter than three bytes, or one whose byte
index `len - 3` is not a character boundary, makes the whole call panic
(`none`).  Rust iterates the `HashMap` in unspecified order; the model
fixes the association-list order, which the claims do not depend on. -/
def parse_languages (languages : List (List (String × String))) :
    Option (List (Except ReconError String)) :=
  (traverseOption (fun (h : List (String × String)) =>
    traverseOption (fun kv => (split_off_last3 kv.2).map Except.ok) h) languages).map
    List.flatten

/-- The ordered format list of `adaptor::parse_publish_date`. -/
def possible_formats : List String := ["%Y", "%B %Y", "%B, %d %Y", "%Y-%m-%d"]

/-- `adaptor::parse_publish_date`: map every format over the optional
input, collect the parse results into a vector and `pop()` it — i.e.
return the LAST element — then wrap the error in `ReconError::DateParse`. -/
def parse_publish_date (publish_date : Option String) :
    Option (Except ReconError NaiveDate) :=
  ((possible_formats.filterMap fun fmt =>
      publish_date.map fun s => NaiveDate.parse_from_str s fmt).getLast?).map
    fun r => r.mapError ReconError.DateParse

end adaptor

/-! ## Candidate-identifier search decoders
(`src/source/google_books.rs`, `src/source/open_library.rs`) -/

namespace GoogleBooks

/-- One search-result item is its `volumeInfo.industryIdentifiers` list:
a list of identifier objects, each an association map. -/
def extract (items : List (List (List (String × String)))) : List String :=
  items.filterMap fun ids => ids.head?.bind fun h => List.lookup "identifier" h

/-- `GoogleBooks::from_description`, after fetch and JSON decode: take
the first identifier object of each item and its `"identifier"` value
(`extract`), `truncate(3)`, parse each candidate
(`Isbn::from_str`, failure as `none`), then `filter(is_ok)` and unwrap. -/
def from_description (items : List (List (List (String × String)))) :
    Except ReconError (List Isbn) :=
  .ok ((((extract items).take 3).map Isbn.from_str).filterMap fun r => r)

end GoogleBooks

namespace OpenLibrary

/-- One search-result doc is its optional `"isbn"` string list; the first
entry, when present, is the candidate. -/
def extract (docs : List (Option (List String))) : List String :=
  docs.filterMap fun isbn => isbn.bind List.head?

/-- `OpenLibrary::from_description`, after fetch and JSON decode:
first candidate per doc, `truncate(3)`, parse, keep successes. -/
def from_description (docs : List (Option (List String))) :
    Except ReconError (List Isbn) :=
  .ok ((((extract docs).take 3).map Isbn.from_str).filterMap fun r => r)

end OpenLibrary

/-! ## Orchestrator (`src/metadata.rs`) -/

namespace Metadata

/-- `Metadata::isbn_from_source`: dispatch one provider.  The network is
abstracted: the GoogleBooks and OpenLibrary decode results are passed in.
`Source::Amazon` hits `unimplemented!()` and `Source::Goodreads` hits
`todo!(...)` — both panic, modelled as `none`. -/
def isbn_from_source (source : Source)
    (googleResult openLibraryResult : Except ReconError Metadata) :
    Option (Except ReconError Metadata) :=
  match source with
  | .GoogleBooks => some googleResult
  | .OpenLibrary => some openLibraryResult
  | .Amazon => none
  | .Goodreads => none

/-- `Metadata::description_from_source`: same dispatch for the
candidate-identifier search; Amazon and Goodreads panic (`none`). -/
def description_from_source (source : Source)
    (googleResult openLibraryResult : Except ReconError (List Isbn)) :
    Option (Except ReconError (List Isbn)) :=
  match source with
  | .GoogleBooks => some googleResult
  | .OpenLibrary => some openLibraryResult
  | .Amazon => none
  | .Goodreads => none

/-- The fold of `Metadata::from_isbn`: `metadata = metadata + m?` —
the first `Err` in the awaited list is returned, otherwise all records
are merged. -/
def from_isbn_fold : Metadata → List (Except ReconError Metadata) →
    Except ReconError Metadata
  | acc, [] => .ok acc
  | _, .error e :: _ => .error e
  | acc, .ok m :: rest => from_isbn_fold (acc + m) rest

/-- `Metadata::from_isbn`, after the concurrent fetches: `join_all`
preserves the source order, so the flow is the fold over the per-provider
decode results, starting from `Metadata::default()`. -/
def from_isbn (results : List (Except ReconError Metadata)) :
    Except ReconError Metadata :=
  from_isbn_fold Metadata.default results

/-- `Metadata::from_description`: the search decode is propagated with
`?`; each candidate ISBN then runs `from_isbn` against the providers
(`providerResults` gives each candidate's per-provider decode results),
and the awaited list is `.into_iter().flatten().collect()` — `flatten`
on `Result` keeps `Ok` payloads and drops `Err` values. -/
def from_description (searchResult : Except ReconError (List Isbn))
    (providerResults : Isbn → List (Except ReconError Metadata)) :
    Except ReconError (List Metadata) :=
  match searchResult with
  | .error e => .error e
  | .ok isbns =>
    .ok ((isbns.map fun isbn => from_isbn (providerResults isbn)).filterMap
      Except.toOption)

end Metadata

/-! ## Claim theorems -/

/-- C1: the record merge (`impl Add for Metadata`) is commutative and
associative, and the all-fields-empty record (`Metadata::default()`) is
its two-sided identity element, where records are compared per-field as
sets. -/
theorem metadata_merge_comm_assoc_identity :
    (∀ a b : Metadata, a + b = b + a) ∧
    (∀ a b c : Metadata, a + b + c = a + (b + c)) ∧
    (∀ a : Metadata, Metadata.default + a = a ∧ a + Metadata.default = a) := by
  refine ⟨fun a b => ?_, fun a b c => ?_, fun a => ?_⟩
  · simp [Metadata.add_def, Metadata.add, CoverImage.extend, Finset.union_comm]
  · simp [Metadata.add_def, Metadata.add, CoverImage.extend, Finset.union_assoc]
  · obtain ⟨i10, i13, t, au, d, pc, pub, pd, lang, tg, c1, c2, c3, c4, c5, c6⟩ := a
    constructor <;>
      simp [Metadata.add_def, Metadata.add, CoverImage.extend, Metadata.default,
        CoverImage.default]

/-- C2 counterexample: one candidate ISBN whose by-identifier sub-flow
fails with a `ConnectionError`; `from_description` returns `Ok([])`
instead of propagating the failure, because the awaited results are
flattened, dropping every `Err`. -/
theorem from_description_drops_subflow_failure :
    Metadata.from_description
        (.ok [Isbn.isbn13 ⟨[9, 7, 8, 0, 4, 4, 1, 0, 1, 3, 5, 9, 3]⟩])
        (fun _ => [.error (.Connection "connection refused")]) = .ok [] := rfl

/-- C2 amended: a search-decode failure is propagated as the failure of
the whole by-description call, but a failing by-identifier sub-flow is
silently skipped: the call returns `Ok` with exactly the successful
sub-flows' records, in candidate order. -/
theorem from_description_error_policy :
    (∀ (e : ReconError) (prov : Isbn → List (Except ReconError Metadata)),
      Metadata.from_description (.error e) prov = .error e) ∧
    (∀ (isbns : List Isbn) (prov : Isbn → List (Except ReconError Metadata)),
      Metadata.from_description (.ok isbns) prov =
        .ok (isbns.filterMap fun i => (Metadata.from_isbn (prov i)).toOption)) := by
  refine ⟨fun e prov => rfl, fun isbns prov => ?_⟩
  simp [Metadata.from_description, List.filterMap_map, Function.comp_def]

/-- C3 counterexample: an identifier list with one valid and one invalid
ISBN-13 string yields a ONE-element identifier collection — the invalid
entry is discarded (the collection's type holds parsed values only, so
no `Err` entry can be retained). -/
theorem googlebooks_identifier_drops_invalid :
    translater.googlebooks_isbn13
        (some [[("type", "ISBN_13"), ("identifier", "9780441013593")],
               [("type", "ISBN_13"), ("identifier", "not-an-isbn")]]) =
      {⟨[9, 7, 8, 0, 4, 4, 1, 0, 1, 3, 5, 9, 3]⟩} ∧
    (translater.googlebooks_isbn13
        (some [[("type", "ISBN_13"), ("identifier", "9780441013593")],
               [("type", "ISBN_13"), ("identifier", "not-an-isbn")]])).card = 1 ∧
    (Isbn13.from_str "9780441013593").isSome = true ∧
    Isbn13.from_str "not-an-isbn" = none := by
  refine ⟨by decide, by decide, by decide, by decide⟩

/-- C3 amended: decoding an identifier list with one valid and one
invalid ISBN string yields a ONE-element identifier collection holding
the parsed ISBN; the invalid string is silently discarded (`discarding
Err` in the source), not retained as an `Err` entry. -/
theorem identifier_collection_keeps_only_parsed
    (good bad good10 : String) (i : Isbn13) (i10 : Isbn10)
    (hg : Isbn13.from_str good = some i) (hb : Isbn13.from_str bad = none)
    (hg10 : Isbn10.from_str good10 = some i10) (hb10 : Isbn10.from_str bad = none) :
    translater.googlebooks_isbn13
        (some [[("type", "ISBN_13"), ("identifier", good)],
               [("type", "ISBN_13"), ("identifier", bad)]]) = {i} ∧
    translater.openlibrary_isbn10 (some [("isbn_10", [good10, bad])]) = {i10} := by
  constructor
  · simp [translater.googlebooks_isbn13, hashset_fallback, List.lookup, List.filter,
      List.filterMap, hg, hb]
  · simp [translater.openlibrary_isbn10, hashset_fallback, strStartsWith, List.filter,
      List.filterMap, hg10, hb10]

theorem identifier_collection_keeps_only_parsed_witness :
    translater.googlebooks_isbn13
        (some [[("type", "ISBN_13"), ("identifier", "9780441013593")],
               [("type", "ISBN_13"), ("identifier", "not-an-isbn")]]) =
      {⟨[9, 7, 8, 0, 4, 4, 1, 0, 1, 3, 5, 9, 3]⟩} ∧
    translater.openlibrary_isbn10 (some [("isbn_10", ["0441013597", "not-an-isbn"])]) =
      {⟨[0, 4, 4, 1, 0, 1, 3, 5, 9, 7]⟩} :=
  identifier_collection_keeps_only_parsed "9780441013593" "not-an-isbn" "0441013597"
    ⟨[9, 7, 8, 0, 4, 4, 1, 0, 1, 3, 5, 9, 3]⟩ ⟨[0, 4, 4, 1, 0, 1, 3, 5, 9, 7]⟩
    (by decide) (by decide) (by decide) (by decide)

/-- C4 counterexample: `"not a date"` matches none of the configured
formats, yet `publication_date` returns the EMPTY set — the unparseable
value is silently dropped, no `DateParse` failure entry is retained. -/
theorem publication_date_drops_unparseable :
    translater.publication_date (some "not a date") = ∅ ∧
    (NaiveDate.parse_from_str "not a date" "%B %d, %Y").toOption = none ∧
    (NaiveDate.parse_from_str "not a date" "%Y-%m-%d").toOption = none ∧
    (NaiveDate.parse_from_str "not a date" "%B, %d %Y").toOption = none := by
  refine ⟨by decide, by decide, by decide, by decide⟩

/-- C4 amended: an input string that matches none of the configured
formats yields the EMPTY `publication_dates` collection — dropped
silently, indistinguishable from a `None`/absent input (which also
yields the empty collection). -/
theorem publication_date_empty_iff_no_format_matches :
    (∀ s : String, translater.publication_date (some s) = ∅ ↔
      ∀ fmt ∈ translater.possible_formats,
        (NaiveDate.parse_from_str s fmt).toOption = none) ∧
    translater.publication_date none = ∅ := by
  refine ⟨fun s => ?_, rfl⟩
  simp [translater.publication_date, List.filterMap_map, List.filterMap_eq_nil_iff]

theorem publication_date_empty_iff_no_format_matches_witness :
    translater.publication_date (some "not a date") = ∅ :=
  (publication_date_empty_iff_no_format_matches.1 "not a date").2 (by decide)

/-- C5 counterexample: `"July, 16 2019"` parses under the third format
`"%B, %d %Y"` of `parse_publish_date`, yet the adaptor returns a
`DateParse` error: due to `.pop()` it only ever consults the LAST
format `"%Y-%m-%d"`, not the first that parses successfully. -/
theorem parse_publish_date_not_first_match :
    NaiveDate.parse_from_str "July, 16 2019" "%B, %d %Y" = .ok ⟨2019, 7, 16⟩ ∧
    adaptor.parse_publish_date (some "July, 16 2019") =
      some (.error (.DateParse .invalid)) := by
  refine ⟨by decide, by decide⟩

/-- C5 amended: `translater::publication_date` collects the results of
ALL formats that parse successfully into a set (on `"2019-07-16"` the
set `{2019-07-16}` via the Year-Month-Day format, on `"July 16, 2019"`
the same date via the Month Day, Year format), while
`adaptor::parse_publish_date` ignores all formats but the LAST: it
returns exactly the result of parsing with `"%Y-%m-%d"`. -/
theorem date_adaptor_format_behaviour :
    translater.publication_date (some "2019-07-16") = {⟨2019, 7, 16⟩} ∧
    NaiveDate.parse_from_str "2019-07-16" "%Y-%m-%d" = .ok ⟨2019, 7, 16⟩ ∧
    translater.publication_date (some "July 16, 2019") = {⟨2019, 7, 16⟩} ∧
    NaiveDate.parse_from_str "July 16, 2019" "%B %d, %Y" = .ok ⟨2019, 7, 16⟩ ∧
    (∀ s : String, adaptor.parse_publish_date (some s) =
      some ((NaiveDate.parse_from_str s "%Y-%m-%d").mapError ReconError.DateParse)) := by
  refine ⟨by decide, by decide, by decide, by decide, fun s => rfl⟩

/-- Fold invariant for `from_isbn`: the fold succeeds exactly when every
per-provider result is `Ok`. -/
theorem from_isbn_fold_isOk (rs : List (Except ReconError Metadata)) :
    ∀ acc, isOkE (Metadata.from_isbn_fold acc rs) = rs.all isOkE := by
  induction rs with
  | nil => intro acc; rfl
  | cons r rest ih =>
    intro acc
    cases r with
    | ok m =>
      have hstep : Metadata.from_isbn_fold acc (.ok m :: rest) =
          Metadata.from_isbn_fold (acc + m) rest := rfl
      rw [hstep, ih (acc + m)]
      simp [isOkE]
    | error e => simp [Metadata.from_isbn_fold, isOkE]

/-- C6: the by-identifier flow is fail-fast — `from_isbn` returns `Ok`
exactly when every provider result is `Ok`, so a single provider error
(e.g. a `ConnectionError` among two successes) makes the overall call an
error. -/
theorem from_isbn_fail_fast :
    (∀ rs : List (Except ReconError Metadata),
      isOkE (Metadata.from_isbn rs) = rs.all isOkE) ∧
    Metadata.from_isbn
        [.ok Metadata.default, .error (.Connection "connection refused"),
         .ok Metadata.default] =
      .error (.Connection "connection refused") :=
  ⟨fun rs => from_isbn_fold_isOk rs _, rfl⟩

/-- `filter(is_ok)` followed by `unwrap` over a mapped parse list is one
`filterMap` of the parse function. -/
theorem filterMap_id_map {α β : Type} (f : α → Option β) (l : List α) :
    (l.map f).filterMap (fun r => r) = l.filterMap f := by
  simp [List.filterMap_map, Function.comp_def]

/-- C7: both search decoders return the parse-successes of the first-3
truncation of the per-item first identifiers: at most 3 candidates, in
original result order (a sublist of all parsed candidates), with
unparseable candidate strings silently dropped and the overall result
always `Ok`; a concrete 5-candidate response yields exactly the first
three, in order. -/
theorem search_candidates_truncated_ordered :
    (∀ items, GoogleBooks.from_description items =
      .ok (((GoogleBooks.extract items).take 3).filterMap Isbn.from_str)) ∧
    (∀ items, (((GoogleBooks.extract items).take 3).filterMap Isbn.from_str).length ≤ 3) ∧
    (∀ items, (((GoogleBooks.extract items).take 3).filterMap Isbn.from_str).Sublist
      ((GoogleBooks.extract items).filterMap Isbn.from_str)) ∧
    (∀ docs, OpenLibrary.from_description docs =
      .ok (((OpenLibrary.extract docs).take 3).filterMap Isbn.from_str)) ∧
    (∀ docs, (((OpenLibrary.extract docs).take 3).filterMap Isbn.from_str).length ≤ 3) ∧
    (∀ docs, (((OpenLibrary.extract docs).take 3).filterMap Isbn.from_str).Sublist
      ((OpenLibrary.extract docs).filterMap Isbn.from_str)) ∧
    GoogleBooks.from_description
        [[[("identifier", "9780000000002")]],
         [[("identifier", "9780000000019")]],
         [[("identifier", "9780000000026")]],
         [[("identifier", "9780000000033")]],
         [[("identifier", "9780000000040")]]] =
      .ok [.isbn13 ⟨[9, 7, 8, 0, 0, 0, 0, 0, 0, 0, 0, 0, 2]⟩,
           .isbn13 ⟨[9, 7, 8, 0, 0, 0, 0, 0, 0, 0, 0, 1, 9]⟩,
           .isbn13 ⟨[9, 7, 8, 0, 0, 0, 0, 0, 0, 0, 0, 2, 6]⟩] := by
  refine ⟨fun items => ?_, fun items => ?_, fun items => ?_,
          fun docs => ?_, fun docs => ?_, fun docs => ?_, by decide⟩
  · simp only [GoogleBooks.from_description, filterMap_id_map]
  · exact le_trans (List.length_filterMap_le _ _)
      (by rw [List.length_take]; exact min_le_left _ _)
  · exact (List.take_sublist _ _).filterMap _
  · simp only [OpenLibrary.from_description, filterMap_id_map]
  · exact le_trans (List.length_filterMap_le _ _)
      (by rw [List.length_take]; exact min_le_left _ _)
  · exact (List.take_sublist _ _).filterMap _

/-- C8 counterexample: dispatching the enumerated-but-unimplemented
providers `Amazon` (`unimplemented!()`) and `Goodreads` (`todo!(...)`)
panics — modelled as `none`, no value is returned at all — instead of
returning a catchable `UnsupportedProvider` error. -/
theorem unsupported_provider_panics :
    Metadata.isbn_from_source .Amazon (.ok Metadata.default) (.ok Metadata.default) =
      none ∧
    Metadata.isbn_from_source .Goodreads (.ok Metadata.default) (.ok Metadata.default) =
      none ∧
    Metadata.description_from_source .Amazon (.ok []) (.ok []) = none ∧
    Metadata.description_from_source .Goodreads (.ok []) (.ok []) = none :=
  ⟨rfl, rfl, rfl, rfl⟩

/-- C8 amended: requesting `Amazon` or `Goodreads` panics at runtime
(`unimplemented!()` / `todo!()`, modelled as `none`) in both flows —
there is no `UnsupportedProvider` variant in `ReconError` at all: every
`ReconError` value is one of `Message`, `JSONParse`, `Connection`,
`ISBNParse` or `DateParse`.  Only `GoogleBooks` and `OpenLibrary` return
their provider's result. -/
theorem provider_dispatch_behaviour :
    (∀ g o : Except ReconError Metadata,
      Metadata.isbn_from_source .Amazon g o = none ∧
      Metadata.isbn_from_source .Goodreads g o = none ∧
      Metadata.isbn_from_source .GoogleBooks g o = some g ∧
      Metadata.isbn_from_source .OpenLibrary g o = some o) ∧
    (∀ g o : Except ReconError (List Isbn),
      Metadata.description_from_source .Amazon g o = none ∧
      Metadata.description_from_source .Goodreads g o = none ∧
      Metadata.description_from_source .GoogleBooks g o = some g ∧
      Metadata.description_from_source .OpenLibrary g o = some o) ∧
    (∀ e : ReconError,
      (∃ m, e = .Message m) ∨ (∃ m, e = .JSONParse m) ∨ (∃ m, e = .Connection m) ∨
      (∃ k, e = .ISBNParse k) ∨ (∃ k, e = .DateParse k)) := by
  refine ⟨fun g o => ⟨rfl, rfl, rfl, rfl⟩, fun g o => ⟨rfl, rfl, rfl, rfl⟩, fun e => ?_⟩
  cases e with
  | Message m => exact .inl ⟨m, rfl⟩
  | JSONParse m => exact .inr (.inl ⟨m, rfl⟩)
  | Connection m => exact .inr (.inr (.inl ⟨m, rfl⟩))
  | ISBNParse k => exact .inr (.inr (.inr (.inl ⟨k, rfl⟩)))
  | DateParse k => exact .inr (.inr (.inr (.inr ⟨k, rfl⟩)))

/-- C9 counterexample: `parse_languages` panics on shape-correct input —
`v.split_off(v.len() - 3)` underflows on the empty string, and on
`"a€b"` (three characters but five bytes) the byte index `5 - 3 = 2`
falls inside `'€'`, so `split_off`'s boundary assertion panics — the
adaptor aborts (modelled as `none`) instead of returning a value. -/
theorem parse_languages_panics_on_short_value :
    adaptor.parse_languages [[("key", "")]] = none ∧
    adaptor.split_off_last3 "" = none ∧
    adaptor.parse_languages [[("key", "a€b")]] = none ∧
    adaptor.split_off_last3 "a€b" = none := by
  refine ⟨by decide, by decide, by decide, by decide⟩

/-- A panic-free element computation makes `traverseOption` panic-free. -/
theorem traverseOption_isSome {α β : Type} (f : α → Option β) :
    ∀ l : List α, (∀ a ∈ l, (f a).isSome = true) →
      (adaptor.traverseOption f l).isSome = true := by
  intro l
  induction l with
  | nil => intro _; rfl
  | cons a as ih =>
    intro h
    obtain ⟨b, hb⟩ := Option.isSome_iff_exists.mp (h a (by simp))
    obtain ⟨bs, hbs⟩ := Option.isSome_iff_exists.mp (ih fun x hx => h x (by simp [hx]))
    simp [adaptor.traverseOption, hb, hbs]

/-- A byte index on a character boundary makes the `split_off` walk
succeed. -/
theorem splitOffBytes_isSome_of_boundary :
    ∀ (cs : List Char) (i : Nat), adaptor.isCharBoundary cs i = true →
      (adaptor.splitOffBytes i cs).isSome = true := by
  intro cs
  induction cs with
  | nil =>
    intro i h
    cases i with
    | zero => rfl
    | succ n => simp [adaptor.isCharBoundary] at h
  | cons c cs ih =>
    intro i h
    cases i with
    | zero => rfl
    | succ n =>
      by_cases hle : c.utf8Size ≤ n + 1
      · rw [adaptor.isCharBoundary, if_pos hle] at h
        rw [adaptor.splitOffBytes, if_pos hle]
        exact ih _ h
      · rw [adaptor.isCharBoundary, if_neg hle] at h
        exact absurd h (by simp)

/-- C9 amended: the field adaptors return a value on every shape-correct
input — including empty strings, empty collections and absent optional
values — EXCEPT `parse_languages`, which panics whenever some language
value is shorter than three bytes, or byte index `len - 3` is not a
character boundary; it does return a value when every value is at least
three bytes long with a character boundary three bytes from the end
(e.g. every ASCII value of length at least three). -/
theorem adaptors_total_except_parse_languages :
    (∀ ls : List (List (String × String)),
      (∀ h ∈ ls, ∀ kv ∈ h,
        3 ≤ adaptor.utf8Len (kv.2 : String).toList ∧
        adaptor.isCharBoundary (kv.2 : String).toList
          (adaptor.utf8Len (kv.2 : String).toList - 3) = true) →
      (adaptor.parse_languages ls).isSome = true) ∧
    adaptor.parse_languages [[("key", "/language/eng")]] = some [.ok "eng"] ∧
    adaptor.split_off_last3 "€" = some "€" ∧
    adaptor.split_off_last3 "日本語語" = some "語" ∧
    translater.string none = ∅ ∧
    translater.number none = ∅ ∧
    translater.vec none = ∅ ∧
    optional_to_hashset (none : Option String) = ∅ ∧
    (∀ s : String, adaptor.parse_string s = some (.ok s)) ∧
    translater.publication_date none = ∅ := by
  refine ⟨fun ls h => ?_, by decide, by decide, by decide, rfl, rfl, rfl, rfl,
    fun s => rfl, rfl⟩
  have hts : (adaptor.traverseOption (fun (hm : List (String × String)) =>
      adaptor.traverseOption
        (fun kv => ((adaptor.split_off_last3 kv.2).map Except.ok :
          Option (Except ReconError String))) hm) ls).isSome = true := by
    refine traverseOption_isSome _ ls fun hm hhm => ?_
    refine traverseOption_isSome _ hm fun kv hkv => ?_
    obtain ⟨h3, hbd⟩ := h hm hhm kv hkv
    obtain ⟨w, hw⟩ := Option.isSome_iff_exists.mp
      (splitOffBytes_isSome_of_boundary _ _ hbd)
    rw [adaptor.split_off_last3, if_neg (Nat.not_lt.mpr h3), hw]
    rfl
  obtain ⟨v, hv⟩ := Option.isSome_iff_exists.mp hts
  rw [adaptor.parse_languages, hv]
  rfl

theorem adaptors_total_except_parse_languages_witness :
    (adaptor.parse_languages [[("key", "/language/eng")]]).isSome = true :=
  adaptors_total_except_parse_languages.1 [[("key", "/language/eng")]] (by decide)

/-- C10: the search decoders truncate the raw candidate strings to the
first 3 BEFORE ISBN validation: whenever the first three extracted
candidate strings are all malformed, the flow returns `Ok` with an empty
candidate list even when later items carry valid ISBNs; concretely, a
response whose items carry `"bad1"`, `"bad2"`, `"bad3"` and then the
valid `"9780441013593"` yields `Ok([])`. -/
theorem search_truncates_before_validation :
    (∀ items, (∀ s ∈ (GoogleBooks.extract items).take 3, Isbn.from_str s = none) →
      GoogleBooks.from_description items = .ok []) ∧
    (∀ docs, (∀ s ∈ (OpenLibrary.extract docs).take 3, Isbn.from_str s = none) →
      OpenLibrary.from_description docs = .ok []) ∧
    GoogleBooks.from_description
        [[[("type", "ISBN_13"), ("identifier", "bad1")]],
         [[("type", "ISBN_13"), ("identifier", "bad2")]],
         [[("type", "ISBN_13"), ("identifier", "bad3")]],
         [[("type", "ISBN_13"), ("identifier", "9780441013593")]]] = .ok [] ∧
    (Isbn.from_str "9780441013593").isSome = true := by
  refine ⟨fun items h => ?_, fun docs h => ?_, by decide, by decide⟩
  · rw [GoogleBooks.from_description, filterMap_id_map,
      List.filterMap_eq_nil_iff.mpr h]
  · rw [OpenLibrary.from_description, filterMap_id_map,
      List.filterMap_eq_nil_iff.mpr h]

theorem search_truncates_before_validation_witness :
    GoogleBooks.from_description
        [[[("type", "ISBN_13"), ("identifier", "bad1")]],
         [[("type", "ISBN_13"), ("identifier", "bad2")]],
         [[("type", "ISBN_13"), ("identifier", "bad3")]],
         [[("type", "ISBN_13"), ("identifier", "9780441013593")]]] = .ok [] :=
  search_truncates_before_validation.1 _ (by decide)

end ReconMetadata
